import Mathlib

/-!
Verification development for the nostrachat relay chat client.

The definitions below are a shallow embedding of the client's core
(src/crypto.rs, src/chats.rs and the session wiring in src/main.rs):

  * machine bytes are modelled as natural numbers (`Bytes`);
  * the external crates (hkdf/sha2 key derivation, secp256k1 ECDH and key
    parsing/encoding, chrono timestamp formatting) are abstracted as an
    explicit record of functions (`ExtCrates`) that every operation takes as an
    argument; nothing in the claims depends on the internals of those
    crates, only on how the client composes them;
  * fallible Rust code (unwrap/expect/slice-index, i.e. code that panics)
    is modelled with `Option`: a `none` result is a panic of the task;
  * serde_json values are modelled by the inductive `Json`, with the
    indexing, accessor and serialization behaviour of the crate
    (indexing a mismatch yields `null`, `Display` renders compact JSON);
  * the interactive printer is modelled by emitting a list of `Out`
    values (displayed lines, notices, warnings, debug prints).
-/

/-- Bytes of the Rust program: a byte vector is a list of naturals. -/
abbrev Bytes := List Nat

/-- Hexadecimal digit character for a value below 16 (lowercase, as the hex crate). -/
def hexDigit (n : Nat) : Char :=
  if n < 10 then Char.ofNat (48 + n) else Char.ofNat (87 + n)

/-- Hex encoding of one byte: two lowercase hex digits, as hex::encode does per byte. -/
def hexByte (b : Nat) : String :=
  String.mk [hexDigit (b / 16 % 16), hexDigit (b % 16)]

/-- Model of hex::encode on a byte vector. -/
def hexEncode (bs : Bytes) : String :=
  String.join (bs.map hexByte)

/-- Model of the Rust byte-range slice `&s[a .. b]`.  The strings the client
slices are ASCII (JSON-rendered keys and bech32 text), where byte indices
and character indices coincide; an out-of-range slice panics, modelled by
`none`. -/
def rustSlice (s : String) (a b : Nat) : Option String :=
  if a ≤ b ∧ b ≤ s.length then some (String.mk ((s.data.drop a).take (b - a))) else none

/-- Lookup in the pubkeys-to-colors HashMap (association-list model). -/
def mapLookup (k : String) : List (String × Nat) → Option Nat
  | [] => none
  | (k1, v) :: rest => if k1 = k then some v else mapLookup k rest

/-- HashMap::insert — replaces an existing binding or appends a new one. -/
def mapInsert (m : List (String × Nat)) (k : String) (v : Nat) : List (String × Nat) :=
  match m with
  | [] => [(k, v)]
  | (k1, v1) :: rest => if k1 = k then (k, v) :: rest else (k1, v1) :: mapInsert rest k v

/-- HashMap::contains_key. -/
def mapContains (m : List (String × Nat)) (k : String) : Bool :=
  (mapLookup k m).isSome

/-- Stable insertion of an element into a list by an integer key: the new
element goes before strictly greater keys and after earlier elements with
an equal key. -/
def insertByKey {α : Type} (key : α → Int) (a : α) : List α → List α
  | [] => [a]
  | b :: l => if key a ≤ key b then a :: b :: l else b :: insertByKey key a l

/-- Stable sort by an integer key.  Rust's `slice::sort_by` (used by
`print_history` with the `created_at` comparator) is documented to be a
stable sort; every stable sort by the same key computes the same list, so
insertion sort is a faithful model of its input/output behaviour. -/
def sortByKey {α : Type} (key : α → Int) : List α → List α
  | [] => []
  | a :: l => insertByKey key a (sortByKey key l)

/-- Model of serde_json::Value. -/
inductive Json where
  | null
  | bool (b : Bool)
  | num (n : Int)
  | str (s : String)
  | arr (xs : List Json)
  | obj (fields : List (String × Json))

/-- Value indexing with a usize, `v[i]`: serde_json returns Null when the
value is not an array or the index is out of bounds. -/
def Json.idx : Json → Nat → Json
  | .arr xs, i => (xs.get? i).getD .null
  | _, _ => .null

/-- Field lookup in the object field list (first binding wins; serde_json
object keys are unique). -/
def lookupField (k : String) : List (String × Json) → Json
  | [] => .null
  | (k1, v) :: rest => if k1 = k then v else lookupField k rest

/-- Value indexing with a string key, `v["k"]`: Null when the value is not
an object or the key is absent. -/
def Json.get : Json → String → Json
  | .obj fs, k => lookupField k fs
  | _, _ => .null

/-- Value::as_str. -/
def Json.as_str : Json → Option String
  | .str s => some s
  | _ => none

/-- Value::as_i64. -/
def Json.as_i64 : Json → Option Int
  | .num n => some n
  | _ => none

/-- Escaping of one character in serde_json string serialization (the
characters the client ever round-trips need only these escapes). -/
def escChar (c : Char) : String :=
  if c = '\"' then "\\\"" else
  if c = '\\' then "\\\\" else
  if c = '\n' then "\\n" else
  if c = '\r' then "\\r" else
  if c = '\t' then "\\t" else
  String.mk [c]

/-- Escaping of a string for serde_json serialization. -/
def escapeStr (s : String) : String :=
  String.join (s.data.map escChar)

mutual

/-- Model of the Display/to_string serialization of serde_json::Value
(compact form). -/
def renderJson : Json → String
  | .null => "null"
  | .bool b => if b then "true" else "false"
  | .num n => toString n
  | .str s => "\"" ++ escapeStr s ++ "\""
  | .arr xs => "[" ++ renderList xs ++ "]"
  | .obj fs => "\x7b" ++ renderFields fs ++ "\x7d"

/-- Comma-joined serialization of an array's elements. -/
def renderList : List Json → String
  | [] => ""
  | [x] => renderJson x
  | x :: y :: xs => renderJson x ++ "," ++ renderList (y :: xs)

/-- Comma-joined serialization of an object's fields. -/
def renderFields : List (String × Json) → String
  | [] => ""
  | [(k, v)] => "\"" ++ escapeStr k ++ "\":" ++ renderJson v
  | (k, v) :: f :: fs => "\"" ++ escapeStr k ++ "\":" ++ renderJson v ++ "," ++ renderFields (f :: fs)

end

/-- Replace the binding of `k` in an object's field list or append it. -/
def setFieldList : List (String × Json) → String → Json → List (String × Json)
  | [], k, v => [(k, v)]
  | (k1, v1) :: rest, k, v =>
      if k1 = k then (k, v) :: rest else (k1, v1) :: setFieldList rest k v

/-- Update of an object field (or insertion into Null, which serde_json's
IndexMut turns into a fresh object); any other receiver panics. -/
def Json.setKey : Json → String → Json → Option Json
  | .obj fs, k, v => some (.obj (setFieldList fs k v))
  | .null, k, v => some (.obj [(k, v)])
  | _, _, _ => none

/-- Model of the statement `json_val[2]["content"] = s` used by the private
receive loop: IndexMut with 2 panics unless the value is an array with at
least three elements; then the "content" key of that element is set. -/
def setContentAt2 (v : Json) (s : Json) : Option Json :=
  match v with
  | .arr xs =>
      match xs.get? 2 with
      | some inner => (inner.setKey "content" s).map (fun inner1 => .arr (xs.set 2 inner1))
      | none => none
  | _ => none

/-!
External crates.  Key material lives in the secp256k1 crate behind opaque
handles; the client only ever feeds those handles to crate functions.  We
model the handles as naturals and the crate functions as an explicit
record, so every client operation is parametrized by an `ExtCrates`.
-/

/-- Abstraction of the external cryptography and formatting crates used by
src/crypto.rs and src/chats.rs.  Secret keys, public keys, x-only public
keys and event ids are opaque handles (naturals). -/
structure ExtCrates where
  /-- Hkdf::<Sha256>::extract(None, ikm): the 32-byte PRK; the returned Hkdf
  object is keyed by the same PRK, so one function models both results. -/
  extract : Bytes → Bytes
  /-- Hkdf::expand(info, okm) on a PRK-keyed Hkdf object; the client asks
  for a 256-byte output keyed by the ratchet PRK with the ECDH shared
  secret as info. -/
  expand : Bytes → Bytes → Bytes
  /-- SharedSecret::new(public_key, secret_key).secret_bytes(). -/
  ecdh : Nat → Nat → Bytes
  /-- XOnlyPublicKey::from_str (fails on text that is not a valid 64-hex-char
  x coordinate). -/
  xFromStr : String → Option Nat
  /-- XOnlyPublicKey::public_key(Parity::Even). -/
  xToPub : Nat → Nat
  /-- PublicKey::x_only_public_key().0. -/
  pubToX : Nat → Nat
  /-- XOnlyPublicKey::to_bech32 (infallible for a well-formed key). -/
  toBech32 : Nat → String
  /-- XOnlyPublicKey Display (64 lowercase hex characters). -/
  xToString : Nat → String
  /-- Keys::new(secret_key).public_key(): the x-only public key a signed
  event carries as its author. -/
  pubOfSec : Nat → Nat
  /-- Debug serialization of PublicKey::serialize(), used by the receive
  loop's diagnostic prints. -/
  pubSerialize : Nat → String
  /-- EventId::to_hex. -/
  idToHex : Nat → String
  /-- EventId::to_bech32 (infallible for a well-formed id). -/
  idToBech32 : Nat → String
  /-- NaiveDateTime::from_timestamp_opt(secs, 0) followed by Display: fails
  (and the client unwraps) when the seconds are out of chrono's range. -/
  formatTimestamp : Int → Option String

/-!
crypto.rs — the ratcheting key schedule.

`RatchetProfile` stores the chain key by value and the ephemeral key pair
behind `Arc<Mutex<EphemeralKeyPair>>`.  The Arc cell is modelled as an
index into a heap of key pairs (`Heap`); cloning the profile copies the
chain key and the index, so clones share the cell but not the chain key —
exactly the `#[derive(Clone)]` semantics of the Rust structure.  The Mutex
is modelled by the sequential interleaving of whole operations (every
lock/unlock pair in the source encloses a single field read or write).
-/

/-- EphemeralKeyPair of crypto.rs. -/
structure EphemeralKeyPair where
  recipient_public_key : Nat
  secret_key : Nat

/-- Backing store of the Arc<Mutex<EphemeralKeyPair>> cells. -/
abbrev Heap := List EphemeralKeyPair

/-- RatchetProfile of crypto.rs: `chain_key` held by value, `ephemeral_keys`
a shared reference into the heap. -/
structure RatchetProfile where
  chain_key : Bytes
  ephemeral_keys : Nat

/-- RatchetProfile::new — HKDF-extract of the ECDH shared secret seeds the
chain key; a fresh shared cell holds the initial ephemeral pair. -/
def RatchetProfile.new (E : ExtCrates) (secret_key : Nat) (recipient_public_key : Nat)
    (heap : Heap) : RatchetProfile × Heap :=
  ({ chain_key := E.extract (E.ecdh recipient_public_key secret_key),
     ephemeral_keys := heap.length },
   heap ++ [{ recipient_public_key := recipient_public_key, secret_key := secret_key }])

/-- RatchetProfile::rotate — advance the chain key by one extract step and
expand the per-message key material from the current ephemeral pair's ECDH
shared secret.  Reading the shared cell fails only if the reference is
dangling (never in the program). -/
def RatchetProfile.rotate (E : ExtCrates) (p : RatchetProfile) (heap : Heap) :
    Option (RatchetProfile × Bytes) := do
  let prk := E.extract p.chain_key
  let pair ← heap.get? p.ephemeral_keys
  let shared_secret := E.ecdh pair.recipient_public_key pair.secret_key
  some ({ p with chain_key := prk }, E.expand prk shared_secret)

/-- RatchetProfile::encrypt_message — rotates once and returns the hex
encoding of the derived key material; the plaintext argument is unused by
the source (the placeholder cipher). -/
def RatchetProfile.encrypt_message (E : ExtCrates) (p : RatchetProfile) (heap : Heap)
    (_input : String) : Option (RatchetProfile × String) := do
  let (p1, message_key) ← p.rotate E heap
  some (p1, hexEncode message_key)

/-- RatchetProfile::decrypt_message — rotates once and appends the hex
encoding of the derived key material to the input. -/
def RatchetProfile.decrypt_message (E : ExtCrates) (p : RatchetProfile) (heap : Heap)
    (input : String) : Option (RatchetProfile × String) := do
  let (p1, message_key) ← p.rotate E heap
  some (p1, input ++ hexEncode message_key)

/-- Composition checked by the round-trip contract: decode of encode under
the same ratchet (the state threads through the two calls, as when one
peer encrypts and the other decrypts with an identical schedule). -/
def crypto_roundtrip (E : ExtCrates) (p : RatchetProfile) (heap : Heap)
    (plaintext : String) : Option String := do
  let (p1, c) ← RatchetProfile.encrypt_message E p heap plaintext
  let (_, d) ← RatchetProfile.decrypt_message E p1 heap c
  some d

/-!
chats.rs — sessions, the printing handler and the receive state machines.
-/

/-- Channel metadata (nostr::Metadata restricted to the fields the client
reads). -/
structure Metadata where
  name : Option String
  about : Option String

/-- The fields of a root nostr::Event the client reads. -/
structure EventRec where
  id : Nat
  pubkey : Nat
  created_at : Int

/-- PublicChannel of chats.rs. -/
structure PublicChannel where
  root_event : EventRec
  metadata : Metadata

/-- PrivateChat of chats.rs. -/
structure PrivateChat where
  name : String
  recipient_public_key : Nat
  secret_key : Nat
  ratchet_profile : RatchetProfile

/-- PublicChannel::get_name — the metadata name, or the root event id in
hex when it is absent. -/
def PublicChannel.get_name (E : ExtCrates) (c : PublicChannel) : String :=
  match c.metadata.name with
  | some name => name
  | none => E.idToHex c.root_event.id

/-- PrivateChat::get_name. -/
def PrivateChat.get_name (c : PrivateChat) : String :=
  c.name

/-- Colored terminal text: the colored crate decorates a string with ANSI
codes; the decoration is modelled by explicit tags, which keeps distinct
colors distinct and the text observable. -/
def colorWrap (color : String) (s : String) : String :=
  "<" ++ color ++ ">" ++ s ++ "</" ++ color ++ ">"

/-- PublicChannel::get_info_table.  The about field is unwrapped by the
source (`self.metadata.about.as_ref().unwrap()`), so an absent about
panics — hence the Option result; likewise the chrono timestamp
conversion is unwrapped. -/
def PublicChannel.get_info_table (E : ExtCrates) (c : PublicChannel) (relay : String) :
    Option String := do
  let relayLine := colorWrap "green" "Relay: " ++ relay
  let event_id_hex := colorWrap "green" "Event ID in Hex: " ++ E.idToHex c.root_event.id
  let event_id_bech32 := colorWrap "green" "Event ID in Bech32: " ++ E.idToBech32 c.root_event.id
  let channel_name := colorWrap "green" "Name: " ++
    (match c.metadata.name with
     | some val => val
     | none => "No name")
  let aboutVal ← c.metadata.about
  let about := colorWrap "green" "About: " ++ aboutVal
  let createdVal ← E.formatTimestamp c.root_event.created_at
  let created_at := colorWrap "green" "Created at: " ++ createdVal
  let creator := colorWrap "green" "Creator: " ++ E.toBech32 c.root_event.pubkey
  some (relayLine ++ "\n" ++ channel_name ++ "\n" ++ event_id_bech32 ++ "\n" ++
    event_id_hex ++ "\n" ++ about ++ "\n" ++ creator ++ "\n" ++ created_at)

/-- PrivateChat::get_info_table. -/
def PrivateChat.get_info_table (_c : PrivateChat) (_relay : String) : String :=
  "Coming soon!"

/-- The event object built by ClientMessage::new_event for an outgoing
message: kind, content, referenced tags and the author (the x-only public
key of the signing key pair, which also produces the signature). -/
structure OutEvent where
  kind : Nat
  content : String
  tags : List Nat
  pubkey : Nat

/-- PublicChannel::message_from — wraps the input as a kind-42 event
referencing the root event and signs it with the caller-supplied key. -/
def PublicChannel.message_from (E : ExtCrates) (c : PublicChannel) (input : String)
    (secret_key : Nat) : OutEvent :=
  { kind := 42, content := input, tags := [c.root_event.id], pubkey := E.pubOfSec secret_key }

/-- PrivateChat::message_from — stores a fresh ephemeral secret key in the
shared cell, encrypts through one ratchet rotation and signs the kind-420
event with the fresh key.  The fresh key (`rand::thread_rng` output) is an
explicit argument; the caller-supplied long-term `secret_key` argument is
carried to mirror the Rust signature but is never read. -/
def PrivateChat.message_from (E : ExtCrates) (c : PrivateChat) (heap : Heap) (input : String)
    (_secret_key : Nat) (random_key : Nat) : Option (PrivateChat × Heap × OutEvent) := do
  let pair ← heap.get? c.ratchet_profile.ephemeral_keys
  let heap1 := heap.set c.ratchet_profile.ephemeral_keys { pair with secret_key := random_key }
  let (p1, enc_input) ← RatchetProfile.encrypt_message E c.ratchet_profile heap1 input
  let pair1 ← heap1.get? c.ratchet_profile.ephemeral_keys
  let rec_pub_key := E.pubToX pair1.recipient_public_key
  some ({ c with ratchet_profile := p1 }, heap1,
        { kind := 420, content := enc_input, tags := [rec_pub_key],
          pubkey := E.pubOfSec random_key })

/-- Observable effects of the receive loops: lines shown through the
external printer, println notices, eprintln warnings and the debug
printlns of the private history loop. -/
inductive Out where
  | display (line : String)
  | notice (line : String)
  | warn (line : String)
  | debug (line : String)
deriving DecidableEq

/-- Check whether an output is an eprintln warning. -/
def Out.isWarn : Out → Bool
  | .warn _ => true
  | _ => false

/-- The state the printing handler reads and writes when formatting a
message: the pubkeys-to-colors map plus the entropy the color draws
consume (`SmallRng::from_entropy().gen_range(1..8)` is modelled by an
entropy stream `entropy` and a count `used` of draws taken; a draw with
raw entropy e yields 1 + e % 7, the exact value set of gen_range(1..8)). -/
structure ColorState where
  pubkeys_to_colors : List (String × Nat)
  entropy : Nat → Nat
  used : Nat

/-- PrintingHandler of chats.rs.  The rustyline ExternalPrinter is an
external sink, modelled by the emitted `Out` values; the color bookkeeping
is grouped in `colors`, and `public_key` is the local identity consulted
only by the channel live-phase display. -/
structure PrintingHandler where
  colors : ColorState
  public_key : Nat

/-- PrintingHandler::get_corresponding_color — the fixed 8-entry palette;
any other number hits the panic arm, modelled by `none`. -/
def get_corresponding_color (input : String) (number : Nat) : Option String :=
  match number with
  | 1 => some (colorWrap "green" input)
  | 2 => some (colorWrap "red" input)
  | 3 => some (colorWrap "blue" input)
  | 4 => some (colorWrap "yellow" input)
  | 5 => some (colorWrap "cyan" input)
  | 6 => some (colorWrap "black" input)
  | 7 => some (colorWrap "white" input)
  | 8 => some (colorWrap "purple" input)
  | _ => none

/-- PrintingHandler::print_formatted_message.  A first-seen author gets a
fresh color draw inserted into the map; the author key is then re-parsed
from its JSON rendering, shortened through bech32, colored with the
author's mapped color and printed with the message body (both slicing
steps and both unwraps can panic, hence Option).  Returns the produced
line. -/
def print_formatted_message (E : ExtCrates) (cs : ColorState) (message : String)
    (author_pubkey : String) : Option (ColorState × String) := do
  let cs1 :=
    if mapContains cs.pubkeys_to_colors author_pubkey then cs
    else { cs with
           pubkeys_to_colors :=
             mapInsert cs.pubkeys_to_colors author_pubkey (1 + cs.entropy cs.used % 7),
           used := cs.used + 1 }
  let stripped ← rustSlice author_pubkey 1 (author_pubkey.length - 1)
  let x ← E.xFromStr stripped
  let author_key_bech32 := E.toBech32 x
  let short ← rustSlice author_key_bech32 4 10
  let colornum ← mapLookup author_pubkey cs1.pubkeys_to_colors
  let colored ← get_corresponding_color short colornum
  let body ← rustSlice message 1 (message.length - 1)
  some (cs1, colored ++ ": " ++ body)

/-- Comparator key of print_history: the `created_at` field of the frame's
event object, as an i64.  The source unwraps the field (print_history is
only reached with buffered event frames, which carry it); `getD 0` stands
for the unwrapped value and agrees with it whenever the field is present. -/
def historyKey (v : Json) : Int :=
  (((v.idx 2).get "created_at").as_i64).getD 0

/-- Flush order of the buffered history: the source stable-sorts the
buffer ascending by `created_at` (`history.sort_by` with the `as_i64`
comparator). -/
def printHistoryOrder (history : List Json) : List Json :=
  sortByKey historyKey history

/-- Sequential formatting of the sorted history through
print_formatted_message. -/
def flushHistory (E : ExtCrates) (cs : ColorState) : List Json → Option (ColorState × List Out)
  | [] => some (cs, [])
  | v :: rest => do
      let (cs1, line) ← print_formatted_message E cs
        (renderJson ((v.idx 2).get "content")) (renderJson ((v.idx 2).get "pubkey"))
      let (cs2, outs) ← flushHistory E cs1 rest
      some (cs2, .display line :: outs)

/-- PrintingHandler::print_history — sort the buffer by `created_at` and
print every entry in sorted order.  The comparator unwraps `as_i64`, so a
buffer of two or more frames containing one without an integer
`created_at` panics during the sort. -/
def print_history (E : ExtCrates) (cs : ColorState) (history : List Json) :
    Option (ColorState × List Out) :=
  if history.length ≤ 1 ∨
     history.all (fun v => (((v.idx 2).get "created_at").as_i64).isSome) then
    flushHistory E cs (printHistoryOrder history)
  else none

/-- PrintingHandler::print_message — the channel live-phase dispatch: an
EVENT is displayed unless its author (the JSON rendering of the pubkey
field with the quotes stripped) equals the local public key's display
form; a NOTICE is printed; anything else is silently ignored. -/
def print_message (E : ExtCrates) (h : PrintingHandler) (v : Json) :
    Option (PrintingHandler × List Out) := do
  let message_kind ← (v.idx 0).as_str
  match message_kind with
  | "EVENT" => do
      let json_pubkey := renderJson ((v.idx 2).get "pubkey")
      let stripped ← rustSlice json_pubkey 1 (json_pubkey.length - 1)
      if stripped = E.xToString h.public_key then
        some (h, [])
      else do
        let (cs1, line) ← print_formatted_message E h.colors
          (renderJson ((v.idx 2).get "content")) json_pubkey
        some ({ h with colors := cs1 }, [.display line])
  | "NOTICE" =>
      some (h, [.notice ("[NOTICE] " ++ renderJson ((v.idx 2).get "content"))])
  | _ => some (h, [])

/-- An inbound websocket read, as the receive loops see it after
`get_next_message`: a transport-level failure (which the source turns into
a panic of the task), an empty text frame, a frame that serde_json rejects
(with the parser's error text), or a parsed JSON value. -/
inductive RawFrame where
  | transportErr (why : String)
  | empty
  | badJson (err : String)
  | json (v : Json)

/-- Phase of a receive loop: buffering history before the first EOSE, or
live. -/
inductive Phase where
  | replaying (buffer : List Json)
  | live

/-- State of the channel receive task. -/
structure ChanState where
  handler : PrintingHandler
  phase : Phase

/-- PublicChannel::print_incoming_events, one inbound frame at a time.
Before EOSE every parsed frame is buffered; EOSE flushes the sorted buffer
and moves to the live loop, where print_message handles each frame.  An
empty frame is skipped silently, a JSON parse failure is skipped with an
eprintln diagnostic, a transport failure panics, and a frame whose first
element is not a string panics at the `as_str().unwrap()`. -/
def channelStep (E : ExtCrates) (s : ChanState) (raw : RawFrame) :
    Option (ChanState × List Out) :=
  match raw with
  | .transportErr _ => none
  | .empty => some (s, [])
  | .badJson err => some (s, [.warn ("Invalid JSON. " ++ err)])
  | .json v =>
    match s.phase with
    | .replaying buffer => do
        let message_kind ← (v.idx 0).as_str
        if message_kind = "EOSE" then do
          let (cs1, outs) ← print_history E s.handler.colors buffer
          some ({ handler := { s.handler with colors := cs1 }, phase := .live }, outs)
        else
          some ({ s with phase := .replaying (buffer ++ [v]) }, [])
    | .live => do
        let (h1, outs) ← print_message E s.handler v
        some ({ handler := h1, phase := .live }, outs)

/-- State of the private receive task: the cloned chat's ratchet profile,
the shared ephemeral-pair heap, the printing handler and the phase. -/
structure PrivState where
  profile : RatchetProfile
  heap : Heap
  handler : PrintingHandler
  phase : Phase

/-- Core of PrivateChat::print_incoming_events for one frame, over the
color state only (the private loops never consult the handler's
public_key: they print through print_formatted_message and print_history
exclusively).  History phase: a non-EOSE frame has its author written
into the shared ephemeral cell (with two debug prints), its content
decrypted in place, and is buffered; EOSE flushes.  Live phase: EVENT
does the same author update and decryption and prints at once; NOTICE is
an empty eprintln; OK and EOSE are ignored; an unknown tag is an eprintln
warning and the loop continues. -/
def privateStepCore (E : ExtCrates) (p : RatchetProfile) (heap : Heap) (cs : ColorState)
    (ph : Phase) (raw : RawFrame) :
    Option ((RatchetProfile × Heap × ColorState × Phase) × List Out) :=
  match raw with
  | .transportErr _ => none
  | .empty => some ((p, heap, cs, ph), [])
  | .badJson err => some ((p, heap, cs, ph), [.warn ("Invalid JSON. " ++ err)])
  | .json v =>
    match ph with
    | .replaying buffer => do
        let message_kind ← (v.idx 0).as_str
        if message_kind = "EOSE" then do
          let (cs1, outs) ← print_history E cs buffer
          some ((p, heap, cs1, .live), outs)
        else do
          let pubkey := renderJson ((v.idx 2).get "pubkey")
          let pair ← heap.get? p.ephemeral_keys
          let before := Out.debug ("BEFORE CHANGING RECP KEY: " ++
            E.pubSerialize pair.recipient_public_key)
          let stripped ← rustSlice pubkey 1 (pubkey.length - 1)
          let x ← E.xFromStr stripped
          let heap1 := heap.set p.ephemeral_keys
            { pair with recipient_public_key := E.xToPub x }
          let pair1 ← heap1.get? p.ephemeral_keys
          let after := Out.debug ("AFTER CHANGING RECP KEY: " ++
            E.pubSerialize pair1.recipient_public_key)
          let (p1, dec) ← RatchetProfile.decrypt_message E p heap1
            (renderJson ((v.idx 2).get "content"))
          let v1 ← setContentAt2 v (.str dec)
          some ((p1, heap1, cs, .replaying (buffer ++ [v1])), [before, after])
    | .live => do
        let message_kind ← (v.idx 0).as_str
        match message_kind with
        | "EVENT" => do
            let pubkey := renderJson ((v.idx 2).get "pubkey")
            let pair ← heap.get? p.ephemeral_keys
            let stripped ← rustSlice pubkey 1 (pubkey.length - 1)
            let x ← E.xFromStr stripped
            let heap1 := heap.set p.ephemeral_keys
              { pair with recipient_public_key := E.xToPub x }
            let (p1, dec) ← RatchetProfile.decrypt_message E p heap1
              (renderJson ((v.idx 2).get "content"))
            let v1 ← setContentAt2 v (.str dec)
            let (cs1, line) ← print_formatted_message E cs
              (renderJson ((v1.idx 2).get "content")) (renderJson ((v1.idx 2).get "pubkey"))
            some ((p1, heap1, cs1, .live), [.display line])
        | "NOTICE" => some ((p, heap, cs, .live), [.warn ""])
        | "OK" => some ((p, heap, cs, .live), [])
        | "EOSE" => some ((p, heap, cs, .live), [])
        | other => some ((p, heap, cs, .live),
            [.warn ("Unexpected event type: " ++ other)])

/-- PrivateChat::print_incoming_events, one inbound frame at a time, at
the level of the task state. -/
def privateStep (E : ExtCrates) (s : PrivState) (raw : RawFrame) :
    Option (PrivState × List Out) :=
  (privateStepCore E s.profile s.heap s.handler.colors s.phase raw).map
    (fun r =>
      ({ profile := r.1.1, heap := r.1.2.1,
         handler := { s.handler with colors := r.1.2.2.1 }, phase := r.1.2.2.2 }, r.2))

/-- Replacement of the local public key stored in a task state's handler
(the only place the local identity enters the receive paths). -/
def PrivState.withLocalKey (s : PrivState) (pk : Nat) : PrivState :=
  { s with handler := { s.handler with public_key := pk } }

/-- Replacement of the local public key in a channel task state. -/
def ChanState.withLocalKey (s : ChanState) (pk : Nat) : ChanState :=
  { s with handler := { s.handler with public_key := pk } }

/-!
main.rs — the two concurrent activities of a private session.

main clones the selected chat and moves the clone into the spawned
receive task (`chat.clone().print_incoming_events(...)`), keeping the
original for the foreground send path.  Cloning a PrivateChat clones its
RatchetProfile: the chain key is copied by value, the Arc around the
ephemeral pair is shared.
-/

/-- The ratchet state of the two concurrent activities: the foreground
profile, the background task's clone and the shared heap. -/
structure TwoTaskWorld where
  fg : RatchetProfile
  bg : RatchetProfile
  heap : Heap

/-- RatchetProfile::clone — a by-value copy: same chain key bytes, same
shared-cell reference. -/
def cloneProfile (p : RatchetProfile) : RatchetProfile := p

/-- Spawn of the receive task in main: the background task receives the
clone, the foreground keeps the original. -/
def spawnReceiveTask (p : RatchetProfile) (heap : Heap) : TwoTaskWorld :=
  { fg := p, bg := cloneProfile p, heap := heap }

/-- Receive-path decode: the background clone rotates its own chain key
(decrypt_message); the heap is read, not written, by the rotation. -/
def bgDecodeAdvance (E : ExtCrates) (w : TwoTaskWorld) (ciphertext : String) :
    Option (TwoTaskWorld × String) := do
  let (bg1, plain) ← RatchetProfile.decrypt_message E w.bg w.heap ciphertext
  some ({ w with bg := bg1 }, plain)

/-- Receive-path peer-key update: the background task overwrites the
recipient public key in the shared cell. -/
def bgUpdateRecipient (E : ExtCrates) (w : TwoTaskWorld) (x : Nat) : Option TwoTaskWorld := do
  let pair ← w.heap.get? w.bg.ephemeral_keys
  some { w with
         heap := w.heap.set w.bg.ephemeral_keys
           { pair with recipient_public_key := E.xToPub x } }

/-- Send-path encode: the foreground original rotates its own chain key
(encrypt_message). -/
def fgEncodeAdvance (E : ExtCrates) (w : TwoTaskWorld) (input : String) :
    Option (TwoTaskWorld × String) := do
  let (fg1, c) ← RatchetProfile.encrypt_message E w.fg w.heap input
  some ({ w with fg := fg1 }, c)

/-!
Concrete instantiations for evaluating the model on explicit inputs.  The
crate record may be instantiated arbitrarily: the claims concern how the
client composes the crate functions, not the functions themselves, so any
executable choice witnesses satisfiability of the hypotheses.
-/

/-- Concrete crate instantiation: extraction prepends a byte (so that a
rotated chain key is visibly different), expansion returns one byte, and
key handles encode/parse through simple arithmetic and fixed-shape text. -/
def extC : ExtCrates where
  extract b := 0 :: b
  expand _prk _info := [7]
  ecdh p s := [p % 256, s % 256]
  xFromStr s := if s.length = 64 then some 7 else none
  xToPub x := x + 1000
  pubToX p := p % 1000
  toBech32 _ := "npub1qqqqqqqqqq"
  xToString x := String.mk (List.replicate 64 (Char.ofNat (97 + x % 26)))
  pubOfSec k := k + 5000
  pubSerialize p := toString p
  idToHex i := toString i
  idToBech32 i := "nevent" ++ toString i
  formatTimestamp t := some (toString t)

/-- Concrete ephemeral pair stored in the single shared cell. -/
def pair0 : EphemeralKeyPair := { recipient_public_key := 11, secret_key := 22 }

/-- Concrete heap with one cell. -/
def heap0 : Heap := [pair0]

/-- Concrete ratchet profile referencing the cell, empty initial chain key. -/
def profile0 : RatchetProfile := { chain_key := [], ephemeral_keys := 0 }

/-- Concrete entropy stream: every raw draw is zero (so every fresh color
draw is 1). -/
def ent0 : Nat → Nat := fun _ => 0

/-- Concrete initial color state. -/
def cs0 : ColorState := { pubkeys_to_colors := [], entropy := ent0, used := 0 }

/-- Concrete printing handler; the local identity is key handle 0 (whose
display form under extC is 64 letters a). -/
def handler0 : PrintingHandler := { colors := cs0, public_key := 0 }

/-- Concrete channel task state in the live phase. -/
def chanLive0 : ChanState := { handler := handler0, phase := .live }

/-- Concrete channel task state replaying history with an empty buffer. -/
def chanReplay0 : ChanState := { handler := handler0, phase := .replaying [] }

/-- Concrete private task state in the live phase. -/
def privLive0 : PrivState :=
  { profile := profile0, heap := heap0, handler := handler0, phase := .live }

/-- Concrete private task state replaying history with an empty buffer. -/
def privReplay0 : PrivState :=
  { profile := profile0, heap := heap0, handler := handler0, phase := .replaying [] }

/-- Concrete two-task world right after main spawns the receive task. -/
def world0 : TwoTaskWorld := spawnReceiveTask profile0 heap0

/-- Concrete private chat for the send path. -/
def chat0 : PrivateChat :=
  { name := "bob", recipient_public_key := 11, secret_key := 3, ratchet_profile := profile0 }

/-- Concrete channel whose metadata lacks the about field. -/
def chanNoAbout : PublicChannel :=
  { root_event := { id := 1, pubkey := 2, created_at := 100 },
    metadata := { name := some "chan", about := none } }

/-- Inbound frame with the unknown top-level tag FOO. -/
def fooFrame : Json := .arr [.str "FOO"]

/-- Inbound EOSE frame. -/
def eoseFrame : Json := .arr [.str "EOSE", .str "sub1"]

/-- The 64-character display form of key handle 0 under extC (letter a). -/
def selfKeyText : String := String.mk (List.replicate 64 'a')

/-- A 64-character author different from the local identity (letter b). -/
def otherKeyText : String := String.mk (List.replicate 64 'b')

/-- Inbound EVENT frame authored by `author` carrying `content`. -/
def eventFrame (author content : String) : Json :=
  .arr [.str "EVENT", .str "sub1",
        .obj [("pubkey", .str author), ("content", .str content), ("created_at", .num 50)]]

/-- The author key of `otherKeyText` as the JSON-rendered string the
printing handler receives (quotes included). -/
def authorB : String := "\"" ++ otherKeyText ++ "\""

/-- Color state in which authorB has already been assigned color 5 (cyan)
after three draws. -/
def csA : ColorState := { pubkeys_to_colors := [(authorB, 5)], entropy := ent0, used := 3 }

/-- Color state after authorB's first sighting from cs0: color 1
assigned, one draw consumed. -/
def csB : ColorState := { pubkeys_to_colors := [(authorB, 1)], entropy := ent0, used := 1 }

/-!
Helper lemmas.
-/

/-- Writing a cell and reading it back yields the written value (the cell
exists whenever it was readable before the write). -/
theorem get?_set_self {α : Type} (l : List α) (i : Nat) (a b : α)
    (h : l.get? i = some b) : (l.set i a).get? i = some a := by
  induction l generalizing i with
  | nil => simp at h
  | cons x xs ih =>
      cases i with
      | zero => rfl
      | succ n => exact ih n h

/-- Membership in a stable insertion. -/
theorem mem_insertByKey {α : Type} (key : α → Int) (a x : α) (l : List α) :
    x ∈ insertByKey key a l ↔ x = a ∨ x ∈ l := by
  induction l with
  | nil => simp [insertByKey]
  | cons b l ih =>
      by_cases h : key a ≤ key b
      · simp [insertByKey, h, List.mem_cons]
      · simp only [insertByKey, if_neg h, List.mem_cons, ih]
        tauto

/-- Stable insertion preserves sortedness by the key. -/
theorem pairwise_insertByKey {α : Type} (key : α → Int) (a : α) (l : List α)
    (hl : l.Pairwise (fun x y => key x ≤ key y)) :
    (insertByKey key a l).Pairwise (fun x y => key x ≤ key y) := by
  induction l with
  | nil => simp [insertByKey]
  | cons b l ih =>
      rcases List.pairwise_cons.mp hl with ⟨hb, hl1⟩
      by_cases h : key a ≤ key b
      · simp only [insertByKey, if_pos h]
        refine List.pairwise_cons.mpr ⟨?_, hl⟩
        intro x hx
        rcases List.mem_cons.mp hx with rfl | hx
        · exact h
        · exact le_trans h (hb x hx)
      · simp only [insertByKey, if_neg h]
        refine List.pairwise_cons.mpr ⟨?_, ih hl1⟩
        intro x hx
        rcases (mem_insertByKey key a x l).mp hx with rfl | hx
        · omega
        · exact hb x hx

/-- The stable sort produces a list sorted by the key. -/
theorem pairwise_sortByKey {α : Type} (key : α → Int) (l : List α) :
    (sortByKey key l).Pairwise (fun x y => key x ≤ key y) := by
  induction l with
  | nil => simp [sortByKey]
  | cons a l ih => simpa [sortByKey] using pairwise_insertByKey key a _ ih

/-- Stability of one insertion, characterized through filtering by a key
value: the inserted element lands in front of the equal-key elements
already present, so filtering commutes with insertion. -/
theorem filter_insertByKey {α : Type} (key : α → Int) (t : Int) (a : α) (l : List α) :
    (insertByKey key a l).filter (fun x => key x == t) =
    (if key a = t then a :: l.filter (fun x => key x == t)
     else l.filter (fun x => key x == t)) := by
  induction l with
  | nil =>
      rw [insertByKey]
      by_cases ha : key a = t <;> simp [ha, List.filter_cons]
  | cons b l ih =>
      by_cases h : key a ≤ key b
      · rw [insertByKey, if_pos h, List.filter_cons, List.filter_cons]
        by_cases ha : key a = t <;> by_cases hb : key b = t <;>
          simp [ha, hb, List.filter_cons]
      · rw [insertByKey, if_neg h, List.filter_cons, ih]
        by_cases ha : key a = t
        · have hb : ¬ key b = t := by omega
          simp [ha, hb]
        · by_cases hb : key b = t <;> simp [ha, hb]

/-- Stability of the sort: the subsequence of elements with any fixed key
value is exactly the input's subsequence with that key value (original
arrival order among equal keys). -/
theorem filter_sortByKey {α : Type} (key : α → Int) (t : Int) (l : List α) :
    (sortByKey key l).filter (fun x => key x == t) =
    l.filter (fun x => key x == t) := by
  induction l with
  | nil => simp [sortByKey]
  | cons a l ih =>
      simp only [sortByKey, filter_insertByKey, ih, List.filter_cons]
      by_cases ha : key a = t <;> simp [ha]

/-!
Claims.
-/

/-- C1: the authenticated-encryption round trip — decrypt_message of
encrypt_message under the same derived key material recovers the
plaintext — fails on the code: encrypt_message discards its plaintext
argument entirely (the ciphertext is the hex of the key material, for any
plaintext), and the round trip at plaintext "hi" yields the concatenated
hex encodings of two successive key materials, not "hi". -/
theorem C1_placeholder_cipher_no_roundtrip :
    (∀ (E : ExtCrates) (p : RatchetProfile) (heap : Heap) (pt1 pt2 : String),
        RatchetProfile.encrypt_message E p heap pt1 =
        RatchetProfile.encrypt_message E p heap pt2) ∧
    crypto_roundtrip extC profile0 heap0 "hi" = some "0707" ∧
    crypto_roundtrip extC profile0 heap0 "hi" ≠ some "hi" :=
  ⟨fun _ _ _ _ _ => rfl, by decide, by decide⟩

/-- C3: print_history flushes the buffered frames in an order that is
non-decreasing in the created_at key, and the subsequence of frames
sharing any fixed created_at value is exactly the arrival-order
subsequence with that value (the sort is stable). -/
theorem C3_print_history_sorted_and_stable (history : List Json) :
    (printHistoryOrder history).Pairwise (fun a b => historyKey a ≤ historyKey b) ∧
    ∀ t : Int,
      (printHistoryOrder history).filter (fun v => historyKey v == t) =
      history.filter (fun v => historyKey v == t) :=
  ⟨pairwise_sortByKey historyKey history, fun t => filter_sortByKey historyKey t history⟩

/-- C4: rendering channel metadata with an absent optional field: get_name
substitutes the root event id for an absent name and never fails, but
get_info_table unwraps the about field, so a channel whose about is absent
panics instead of rendering a placeholder — the claim's "never fails" is
violated by the code. -/
theorem C4_get_info_table_panics_on_absent_about :
    PublicChannel.get_name extC
      { root_event := { id := 1, pubkey := 2, created_at := 100 },
        metadata := { name := none, about := some "a" } } = extC.idToHex 1 ∧
    PublicChannel.get_info_table extC chanNoAbout "wss://relay.example" = none :=
  ⟨rfl, rfl⟩

/-- Steps taken by the private receive loop from the Live phase stay in
the Live phase. -/
theorem privateStepCore_live_stays_live (E : ExtCrates) (p : RatchetProfile) (heap : Heap)
    (cs : ColorState) (raw : RawFrame) (r : RatchetProfile × Heap × ColorState × Phase)
    (outs : List Out) (h : privateStepCore E p heap cs .live raw = some (r, outs)) :
    r.2.2.2 = Phase.live := by
  cases raw with
  | transportErr why => simp [privateStepCore] at h
  | empty =>
      simp only [privateStepCore, Option.some_inj, Prod.mk.injEq] at h
      rw [← h.1]
  | badJson err =>
      simp only [privateStepCore, Option.some_inj, Prod.mk.injEq] at h
      rw [← h.1]
  | json v =>
      simp only [privateStepCore] at h
      cases hk : (v.idx 0).as_str with
      | none => rw [hk] at h; simp at h
      | some k =>
          rw [hk] at h
          simp only [Option.bind_eq_bind, Option.some_bind] at h
          split at h
          · -- EVENT arm
            cases e1 : heap.get? p.ephemeral_keys with
            | none => rw [e1] at h; simp at h
            | some pair =>
                rw [e1] at h
                simp only [Option.bind_eq_bind, Option.some_bind] at h
                cases e2 : rustSlice (renderJson ((v.idx 2).get "pubkey")) 1
                    ((renderJson ((v.idx 2).get "pubkey")).length - 1) with
                | none => rw [e2] at h; simp at h
                | some stripped =>
                    rw [e2] at h
                    simp only [Option.bind_eq_bind, Option.some_bind] at h
                    cases e3 : E.xFromStr stripped with
                    | none => rw [e3] at h; simp at h
                    | some x =>
                        rw [e3] at h
                        simp only [Option.bind_eq_bind, Option.some_bind] at h
                        cases e4 : RatchetProfile.decrypt_message E p
                            (heap.set p.ephemeral_keys
                              { pair with recipient_public_key := E.xToPub x })
                            (renderJson ((v.idx 2).get "content")) with
                        | none => rw [e4] at h; simp at h
                        | some pr =>
                            obtain ⟨p1, dec⟩ := pr
                            rw [e4] at h
                            simp only [Option.bind_eq_bind, Option.some_bind] at h
                            cases e5 : setContentAt2 v (.str dec) with
                            | none => rw [e5] at h; simp at h
                            | some v1 =>
                                rw [e5] at h
                                simp only [Option.bind_eq_bind, Option.some_bind] at h
                                cases e6 : print_formatted_message E cs
                                    (renderJson ((v1.idx 2).get "content"))
                                    (renderJson ((v1.idx 2).get "pubkey")) with
                                | none => rw [e6] at h; simp at h
                                | some cr =>
                                    obtain ⟨cs1, line⟩ := cr
                                    rw [e6] at h
                                    simp only [Option.bind_eq_bind, Option.some_bind,
                                      Option.some_inj, Prod.mk.injEq] at h
                                    rw [← h.1]
          · simp only [Option.some_inj, Prod.mk.injEq] at h; rw [← h.1]
          · simp only [Option.some_inj, Prod.mk.injEq] at h; rw [← h.1]
          · simp only [Option.some_inj, Prod.mk.injEq] at h; rw [← h.1]
          · simp only [Option.some_inj, Prod.mk.injEq] at h; rw [← h.1]

/-- Steps taken by the channel receive loop from the Live phase stay in
the Live phase. -/
theorem channelStep_live_stays_live (E : ExtCrates) (h : PrintingHandler) (raw : RawFrame)
    (s1 : ChanState) (outs : List Out)
    (hstep : channelStep E { handler := h, phase := .live } raw = some (s1, outs)) :
    s1.phase = Phase.live := by
  cases raw with
  | transportErr why => simp [channelStep] at hstep
  | empty =>
      simp only [channelStep, Option.some_inj, Prod.mk.injEq] at hstep
      rw [← hstep.1]
  | badJson err =>
      simp only [channelStep, Option.some_inj, Prod.mk.injEq] at hstep
      rw [← hstep.1]
  | json v =>
      simp only [channelStep] at hstep
      cases hpm : print_message E h v with
      | none => rw [hpm] at hstep; simp at hstep
      | some r =>
          obtain ⟨h1, outs1⟩ := r
          rw [hpm] at hstep
          simp only [Option.bind_eq_bind, Option.some_bind, Option.some_inj,
            Prod.mk.injEq] at hstep
          rw [← hstep.1]

/-- Lifting of the stays-live property to the private task state. -/
theorem privateStep_live_stays_live (E : ExtCrates) (p : RatchetProfile) (heap : Heap)
    (h : PrintingHandler) (raw : RawFrame) (s1 : PrivState) (outs : List Out)
    (hstep : privateStep E { profile := p, heap := heap, handler := h, phase := .live } raw =
      some (s1, outs)) : s1.phase = Phase.live := by
  simp only [privateStep] at hstep
  cases hc : privateStepCore E p heap h.colors .live raw with
  | none => rw [hc] at hstep; simp at hstep
  | some ro =>
      obtain ⟨rr, oo⟩ := ro
      rw [hc] at hstep
      simp only [Option.map_some', Option.some_inj, Prod.mk.injEq] at hstep
      have hl := privateStepCore_live_stays_live E p heap h.colors raw rr oo hc
      rw [← hstep.1]
      exact hl

/-- C9: in both session variants, an EOSE frame received while replaying
history flushes the buffer and transitions the state machine to Live; an
EOSE frame received while Live leaves the state unchanged and produces no
output (nothing displayed, nothing re-flushed); and no step taken from
the Live phase ever returns to ReplayingHistory — so the transition
happens exactly once per session. -/
theorem C9_first_eose_transitions_then_noop (E : ExtCrates) :
    (∀ (h : PrintingHandler) (buffer : List Json) (cs1 : ColorState) (outs : List Out),
        print_history E h.colors buffer = some (cs1, outs) →
        channelStep E { handler := h, phase := .replaying buffer } (.json eoseFrame) =
          some ({ handler := { h with colors := cs1 }, phase := .live }, outs)) ∧
    (∀ h : PrintingHandler,
        channelStep E { handler := h, phase := .live } (.json eoseFrame) =
          some ({ handler := h, phase := .live }, [])) ∧
    (∀ (p : RatchetProfile) (heap : Heap) (h : PrintingHandler) (buffer : List Json)
        (cs1 : ColorState) (outs : List Out),
        print_history E h.colors buffer = some (cs1, outs) →
        privateStep E { profile := p, heap := heap, handler := h, phase := .replaying buffer }
          (.json eoseFrame) =
          some ({ profile := p, heap := heap, handler := { h with colors := cs1 },
                  phase := .live }, outs)) ∧
    (∀ (p : RatchetProfile) (heap : Heap) (h : PrintingHandler),
        privateStep E { profile := p, heap := heap, handler := h, phase := .live }
          (.json eoseFrame) =
          some ({ profile := p, heap := heap, handler := h, phase := .live }, [])) ∧
    (∀ (s : ChanState) (raw : RawFrame) (s1 : ChanState) (outs : List Out),
        s.phase = .live → channelStep E s raw = some (s1, outs) → s1.phase = .live) ∧
    (∀ (s : PrivState) (raw : RawFrame) (s1 : PrivState) (outs : List Out),
        s.phase = .live → privateStep E s raw = some (s1, outs) → s1.phase = .live) := by
  refine ⟨?_, ?_, ?_, ?_, ?_, ?_⟩
  · intro h buffer cs1 outs hh
    simp [channelStep, eoseFrame, Json.idx, Json.as_str, hh]
  · intro h
    simp [channelStep, print_message, eoseFrame, Json.idx, Json.as_str]
  · intro p heap h buffer cs1 outs hh
    simp [privateStep, privateStepCore, eoseFrame, Json.idx, Json.as_str, hh]
  · intro p heap h
    simp [privateStep, privateStepCore, eoseFrame, Json.idx, Json.as_str]
  · intro s raw s1 outs hph hstep
    obtain ⟨h, ph⟩ := s
    cases hph
    exact channelStep_live_stays_live E h raw s1 outs hstep
  · intro s raw s1 outs hph hstep
    obtain ⟨p, heap, h, ph⟩ := s
    cases hph
    exact privateStep_live_stays_live E p heap h raw s1 outs hstep

/-- C9 witness: the EOSE transition and its idempotence evaluated at the
concrete instantiation, with the empty buffer flushing to no output. -/
theorem C9_first_eose_witness :
    channelStep extC chanReplay0 (.json eoseFrame) =
      some ({ handler := handler0, phase := .live }, []) ∧
    privateStep extC privReplay0 (.json eoseFrame) =
      some ({ profile := profile0, heap := heap0, handler := handler0, phase := .live }, []) ∧
    channelStep extC chanLive0 (.json eoseFrame) =
      some ({ handler := handler0, phase := .live }, []) ∧
    privateStep extC privLive0 (.json eoseFrame) =
      some ({ profile := profile0, heap := heap0, handler := handler0, phase := .live }, []) :=
  ⟨(C9_first_eose_transitions_then_noop extC).1 handler0 [] cs0 [] rfl,
   (C9_first_eose_transitions_then_noop extC).2.2.1 profile0 heap0 handler0 [] cs0 [] rfl,
   (C9_first_eose_transitions_then_noop extC).2.1 handler0,
   (C9_first_eose_transitions_then_noop extC).2.2.2.1 profile0 heap0 handler0⟩

/-- C5 counterexample: a channel session in the Live phase receiving the
unknown top-level tag FOO skips the frame but logs no warning at all (the
source's catch-all arm in print_message is empty) — refuting the claim
that a warning is logged in both session variants and both phases. -/
theorem C5_counterexample_channel_live_unknown_silent :
    channelStep extC chanLive0 (.json fooFrame) = some (chanLive0, []) := rfl

/-- C5 amended: only a private session in the Live phase logs a warning
for an unknown top-level tag and skips the frame; a channel session in
the Live phase skips the frame silently; a channel session replaying
history buffers the unknown frame as if it were history; and a private
session replaying history attempts peer-key extraction on the frame,
panicking when the frame carries no parseable pubkey.  In the first three
cases the stream goes on to process the next frame normally. -/
theorem C5_amended_unknown_tag_behavior (E : ExtCrates) :
    (∀ (s : PrivState) (tag : String) (rest : List Json),
        s.phase = .live →
        tag ≠ "EVENT" → tag ≠ "NOTICE" → tag ≠ "OK" → tag ≠ "EOSE" →
        privateStep E s (.json (.arr (.str tag :: rest))) =
          some (s, [.warn ("Unexpected event type: " ++ tag)])) ∧
    (∀ (s : ChanState) (tag : String) (rest : List Json),
        s.phase = .live →
        tag ≠ "EVENT" → tag ≠ "NOTICE" →
        channelStep E s (.json (.arr (.str tag :: rest))) = some (s, [])) ∧
    (∀ (h : PrintingHandler) (buffer : List Json) (tag : String) (rest : List Json),
        tag ≠ "EOSE" →
        channelStep E { handler := h, phase := .replaying buffer }
          (.json (.arr (.str tag :: rest))) =
          some ({ handler := h,
                  phase := .replaying (buffer ++ [.arr (.str tag :: rest)]) }, [])) ∧
    (∀ (s : PrivState) (buffer : List Json) (tag : String) (pair : EphemeralKeyPair),
        s.phase = .replaying buffer →
        tag ≠ "EOSE" →
        s.heap.get? s.profile.ephemeral_keys = some pair →
        E.xFromStr "ul" = none →
        privateStep E s (.json (.arr [.str tag])) = none) := by
  refine ⟨?_, ?_, ?_, ?_⟩
  · intro s tag rest hph h1 h2 h3 h4
    obtain ⟨p, heap, h, ph⟩ := s
    cases hph
    simp only [privateStep, privateStepCore, Json.idx, Json.as_str, List.get?,
      Option.getD, Option.bind_eq_bind, Option.some_bind]
    rfl
  · intro s tag rest hph h1 h2
    obtain ⟨h, ph⟩ := s
    cases hph
    simp only [channelStep, print_message, Json.idx, Json.as_str, List.get?,
      Option.getD, Option.bind_eq_bind, Option.some_bind]
  · intro h buffer tag rest h1
    simp [channelStep, Json.idx, Json.as_str, h1]
  · intro s buffer tag pair hph h1 hpair hx
    obtain ⟨p, heap, hd, ph⟩ := s
    cases hph
    simp only [PrivState.heap, PrivState.profile, List.get?_eq_getElem?] at hpair
    have hlen : "null".length = 4 := rfl
    simp [privateStep, privateStepCore, Json.idx, Json.as_str, Json.get, h1, hpair, hx,
      rustSlice, renderJson, hlen]

/-- C5 witness: the four amended behaviours evaluated at the concrete
instantiation with the unknown tag FOO. -/
theorem C5_amended_witness :
    privateStep extC privLive0 (.json fooFrame) =
      some (privLive0, [.warn "Unexpected event type: FOO"]) ∧
    channelStep extC chanLive0 (.json fooFrame) = some (chanLive0, []) ∧
    channelStep extC chanReplay0 (.json fooFrame) =
      some ({ handler := handler0, phase := .replaying [fooFrame] }, []) ∧
    privateStep extC privReplay0 (.json fooFrame) = none :=
  ⟨(C5_amended_unknown_tag_behavior extC).1 privLive0 "FOO" [] rfl
      (by decide) (by decide) (by decide) (by decide),
   (C5_amended_unknown_tag_behavior extC).2.1 chanLive0 "FOO" [] rfl
      (by decide) (by decide),
   (C5_amended_unknown_tag_behavior extC).2.2.1 handler0 [] "FOO" [] (by decide),
   (C5_amended_unknown_tag_behavior extC).2.2.2 privReplay0 [] "FOO" pair0 rfl
      (by decide) rfl rfl⟩

/-- C6 counterexample: a frame that is valid JSON but not an array of the
expected shape — here the array whose first element is the number 1 —
panics the channel receive task at `json_val[0].as_str().unwrap()` instead
of being dropped with a diagnostic, refuting the claim that only a
transport-level read failure terminates the stream. -/
theorem C6_counterexample_nonstring_tag_panics :
    channelStep extC chanReplay0 (.json (.arr [.num 1])) = none := rfl

/-- C6 amended: in both session variants and both phases, an empty frame
is dropped silently (no diagnostic) and a frame that fails JSON parsing
is dropped with a logged diagnostic, the stream continuing in both cases;
a transport-level read failure terminates the stream; and additionally a
frame that parses as JSON but whose first element is not a string panics
the receive task, also terminating the stream. -/
theorem C6_amended_malformed_frame_behavior (E : ExtCrates) :
    (∀ s : ChanState, channelStep E s .empty = some (s, [])) ∧
    (∀ (s : ChanState) (err : String),
        channelStep E s (.badJson err) = some (s, [.warn ("Invalid JSON. " ++ err)])) ∧
    (∀ (s : ChanState) (why : String), channelStep E s (.transportErr why) = none) ∧
    (∀ s : PrivState, privateStep E s .empty = some (s, [])) ∧
    (∀ (s : PrivState) (err : String),
        privateStep E s (.badJson err) = some (s, [.warn ("Invalid JSON. " ++ err)])) ∧
    (∀ (s : PrivState) (why : String), privateStep E s (.transportErr why) = none) ∧
    (∀ (s : ChanState) (v : Json),
        (v.idx 0).as_str = none → channelStep E s (.json v) = none) ∧
    (∀ (s : PrivState) (v : Json),
        (v.idx 0).as_str = none → privateStep E s (.json v) = none) := by
  refine ⟨fun s => rfl, fun s err => rfl, fun s why => rfl,
          fun s => rfl, fun s err => rfl, fun s why => rfl, ?_, ?_⟩
  · intro s v hv
    obtain ⟨h, ph⟩ := s
    cases ph <;> simp [channelStep, print_message, hv]
  · intro s v hv
    obtain ⟨p, heap, h, ph⟩ := s
    cases ph <;> simp [privateStep, privateStepCore, hv]

/-- C6 witness: the amended behaviours evaluated at the concrete
instantiation, including the panic on the frame whose first element is
the number 1. -/
theorem C6_amended_witness :
    channelStep extC chanLive0 .empty = some (chanLive0, []) ∧
    channelStep extC chanLive0 (.badJson "expected value") =
      some (chanLive0, [.warn "Invalid JSON. expected value"]) ∧
    channelStep extC chanLive0 (.transportErr "closed") = none ∧
    privateStep extC privReplay0 .empty = some (privReplay0, []) ∧
    privateStep extC privReplay0 (.badJson "expected value") =
      some (privReplay0, [.warn "Invalid JSON. expected value"]) ∧
    privateStep extC privReplay0 (.transportErr "closed") = none ∧
    channelStep extC chanLive0 (.json (.arr [.num 1])) = none ∧
    privateStep extC privLive0 (.json (.arr [.num 1])) = none :=
  ⟨(C6_amended_malformed_frame_behavior extC).1 chanLive0,
   (C6_amended_malformed_frame_behavior extC).2.1 chanLive0 "expected value",
   (C6_amended_malformed_frame_behavior extC).2.2.1 chanLive0 "closed",
   (C6_amended_malformed_frame_behavior extC).2.2.2.1 privReplay0,
   (C6_amended_malformed_frame_behavior extC).2.2.2.2.1 privReplay0 "expected value",
   (C6_amended_malformed_frame_behavior extC).2.2.2.2.2.1 privReplay0 "closed",
   (C6_amended_malformed_frame_behavior extC).2.2.2.2.2.2.1 chanLive0 (.arr [.num 1]) rfl,
   (C6_amended_malformed_frame_behavior extC).2.2.2.2.2.2.2 privLive0 (.arr [.num 1]) rfl⟩

/-- C2 counterexample: in the spawned configuration, one decode-path
advance moves the background clone's chain key from [] to [0] while the
foreground's chain key stays [], and the next encode-path rotation then
derives chain key [0] = extract [] instead of [0, 0] = extract [0] — the
decode-path advance is not observed by the encode path, refuting the
claim that one single ratchet state is shared by the two paths. -/
theorem C2_counterexample_chain_advance_not_observed :
    ((do
        let (w1, _) ← bgDecodeAdvance extC world0 "ciphertext"
        let (w2, _) ← fgEncodeAdvance extC w1 "reply"
        some (w1.fg.chain_key, w1.bg.chain_key, w2.fg.chain_key)) =
      some (([] : Bytes), ([0] : Bytes), ([0] : Bytes))) ∧
    (([] : Bytes) ≠ [0]) ∧ (([0] : Bytes) ≠ extC.extract [0]) := by
  refine ⟨by decide, by decide, by decide⟩

/-- C2 amended: cloning the chat for the spawned receive task copies the
chain key by value and shares only the ephemeral key pair cell: a
decode-path rotation advances the background clone's chain key without
touching the foreground profile or the shared heap, while a peer-key
update written through the clone is observed by the next foreground
rotation, which derives its key material from the updated recipient key
and from the foreground's own (independent) chain key. -/
theorem C2_amended_only_ephemeral_pair_shared (E : ExtCrates) :
    (∀ p : RatchetProfile,
        (cloneProfile p).ephemeral_keys = p.ephemeral_keys ∧
        (cloneProfile p).chain_key = p.chain_key) ∧
    (∀ (w : TwoTaskWorld) (c : String) (w1 : TwoTaskWorld) (pt : String),
        bgDecodeAdvance E w c = some (w1, pt) → w1.fg = w.fg ∧ w1.heap = w.heap) ∧
    (∀ (w : TwoTaskWorld) (x : Nat) (pair : EphemeralKeyPair) (w1 : TwoTaskWorld),
        w.fg.ephemeral_keys = w.bg.ephemeral_keys →
        w.heap.get? w.bg.ephemeral_keys = some pair →
        bgUpdateRecipient E w x = some w1 →
        RatchetProfile.rotate E w1.fg w1.heap =
          some ({ w1.fg with chain_key := E.extract w.fg.chain_key },
                E.expand (E.extract w.fg.chain_key)
                  (E.ecdh (E.xToPub x) pair.secret_key))) := by
  refine ⟨fun p => ⟨rfl, rfl⟩, ?_, ?_⟩
  · intro w c w1 pt hdec
    simp only [bgDecodeAdvance] at hdec
    cases hd : RatchetProfile.decrypt_message E w.bg w.heap c with
    | none => rw [hd] at hdec; simp at hdec
    | some r =>
        obtain ⟨bg1, plain⟩ := r
        rw [hd] at hdec
        simp only [Option.bind_eq_bind, Option.some_bind, Option.some_inj,
          Prod.mk.injEq] at hdec
        rw [← hdec.1]
        exact ⟨rfl, rfl⟩
  · intro w x pair w1 heq hpair hupd
    simp only [bgUpdateRecipient, hpair, Option.bind_eq_bind, Option.some_bind,
      Option.some_inj] at hupd
    have hget : w1.heap.get? w1.fg.ephemeral_keys =
        some { pair with recipient_public_key := E.xToPub x } := by
      rw [← hupd]
      simp only [heq]
      exact get?_set_self _ _ _ _ hpair
    have hfg : w1.fg = w.fg := by rw [← hupd]
    rw [RatchetProfile.rotate, hget]
    simp [hfg]

/-- C2 witness: the amended sharing structure evaluated at the concrete
spawned world — the decode advance leaves the foreground profile and heap
unchanged, and after the background writes recipient key 1003 through the
shared cell the foreground rotation reads it back. -/
theorem C2_amended_witness :
    ((cloneProfile profile0).ephemeral_keys = profile0.ephemeral_keys ∧
     (cloneProfile profile0).chain_key = profile0.chain_key) ∧
    (({ fg := profile0, bg := { chain_key := [0], ephemeral_keys := 0 },
        heap := heap0 } : TwoTaskWorld).fg = world0.fg ∧
     ({ fg := profile0, bg := { chain_key := [0], ephemeral_keys := 0 },
        heap := heap0 } : TwoTaskWorld).heap = world0.heap) ∧
    RatchetProfile.rotate extC
        ({ fg := profile0, bg := profile0,
           heap := [{ recipient_public_key := 1003, secret_key := 22 }] } : TwoTaskWorld).fg
        ({ fg := profile0, bg := profile0,
           heap := [{ recipient_public_key := 1003, secret_key := 22 }] } : TwoTaskWorld).heap =
      some ({ chain_key := [0], ephemeral_keys := 0 }, [7]) :=
  ⟨(C2_amended_only_ephemeral_pair_shared extC).1 profile0,
   (C2_amended_only_ephemeral_pair_shared extC).2.1 world0 "ciphertext"
     { fg := profile0, bg := { chain_key := [0], ephemeral_keys := 0 }, heap := heap0 }
     "ciphertext07" rfl,
   (C2_amended_only_ephemeral_pair_shared extC).2.2 world0 3 pair0
     { fg := profile0, bg := profile0,
       heap := [{ recipient_public_key := 1003, secret_key := 22 }] } rfl rfl rfl⟩

/-- C8: for every outgoing private-session message, message_from stores
the fresh ephemeral secret key as the new ephemeral secret in the shared
cell, derives the message key material by exactly one rotation of the
chain key (keyed by the fresh ephemeral secret and the current recipient
key), signs the kind-420 event with the fresh key — the event's author is
the fresh key's public key — and never reads the caller-supplied
long-term secret key (the result is identical for any two values of that
argument). -/
theorem C8_private_message_uses_fresh_ephemeral_key (E : ExtCrates) (c : PrivateChat)
    (heap : Heap) (input : String) (sk1 sk2 rk : Nat) (pair : EphemeralKeyPair)
    (hpair : heap.get? c.ratchet_profile.ephemeral_keys = some pair) :
    PrivateChat.message_from E c heap input sk1 rk =
      PrivateChat.message_from E c heap input sk2 rk ∧
    PrivateChat.message_from E c heap input sk1 rk =
      some ({ c with ratchet_profile :=
                { c.ratchet_profile with
                  chain_key := E.extract c.ratchet_profile.chain_key } },
            heap.set c.ratchet_profile.ephemeral_keys { pair with secret_key := rk },
            { kind := 420,
              content := hexEncode (E.expand (E.extract c.ratchet_profile.chain_key)
                (E.ecdh pair.recipient_public_key rk)),
              tags := [E.pubToX pair.recipient_public_key],
              pubkey := E.pubOfSec rk }) := by
  refine ⟨rfl, ?_⟩
  have hset : (heap.set c.ratchet_profile.ephemeral_keys
      { pair with secret_key := rk }).get? c.ratchet_profile.ephemeral_keys =
      some { pair with secret_key := rk } := get?_set_self _ _ _ _ hpair
  simp only [List.get?_eq_getElem?] at hpair hset
  simp [PrivateChat.message_from, RatchetProfile.encrypt_message, RatchetProfile.rotate,
    hpair, hset]

/-- C8 witness: the outgoing private message evaluated at the concrete
session with fresh ephemeral key 42 and long-term keys 3 and 99: both
long-term keys give the same result, the cell now stores secret 42, the
chain key advanced once and the event is authored by key 42's public
key. -/
theorem C8_private_message_witness :
    PrivateChat.message_from extC chat0 heap0 "hello" 3 42 =
      PrivateChat.message_from extC chat0 heap0 "hello" 99 42 ∧
    PrivateChat.message_from extC chat0 heap0 "hello" 3 42 =
      some ({ chat0 with ratchet_profile := { chain_key := [0], ephemeral_keys := 0 } },
            [{ recipient_public_key := 11, secret_key := 42 }],
            { kind := 420, content := "07", tags := [11], pubkey := 5042 }) :=
  C8_private_message_uses_fresh_ephemeral_key extC chat0 heap0 "hello" 3 99 42 pair0 rfl

/-- Inserting a binding makes it the one found by lookup. -/
theorem mapLookup_mapInsert_self (m : List (String × Nat)) (k : String) (v : Nat) :
    mapLookup k (mapInsert m k v) = some v := by
  induction m with
  | nil => simp [mapInsert, mapLookup]
  | cons kv rest ih =>
      obtain ⟨k1, v1⟩ := kv
      by_cases h : k1 = k
      · simp [mapInsert, mapLookup, h]
      · simp [mapInsert, mapLookup, h, ih]

/-- C10: color assignment of the printing handler.  A first-seen author
gets the color 1 + e % 7 drawn from the entropy stream — always inside
the fixed 8-entry palette, so the out-of-range panic arm of
get_corresponding_color is unreachable for assigned colors (which the
second conjunct makes explicit: every number in 1..8 has a palette
entry); and a later display of an already-assigned author leaves the
color map unchanged and renders with exactly the previously assigned
color. -/
theorem C10_color_assignment_stable_and_in_palette (E : ExtCrates) :
    (∀ (cs : ColorState) (message author : String) (cs1 : ColorState) (line : String),
        mapLookup author cs.pubkeys_to_colors = none →
        print_formatted_message E cs message author = some (cs1, line) →
        mapLookup author cs1.pubkeys_to_colors = some (1 + cs.entropy cs.used % 7) ∧
        1 ≤ 1 + cs.entropy cs.used % 7 ∧ 1 + cs.entropy cs.used % 7 ≤ 8) ∧
    (∀ n : Nat, 1 ≤ n → n ≤ 8 → ∀ s : String,
        (get_corresponding_color s n).isSome) ∧
    (∀ (cs : ColorState) (message author : String) (col : Nat) (cs1 : ColorState)
        (line : String),
        mapLookup author cs.pubkeys_to_colors = some col →
        print_formatted_message E cs message author = some (cs1, line) →
        cs1 = cs ∧
        ∃ short body colored,
          get_corresponding_color short col = some colored ∧
          line = colored ++ ": " ++ body) := by
  refine ⟨?_, ?_, ?_⟩
  · intro cs message author cs1 line hnone hpfm
    simp only [print_formatted_message, mapContains, hnone, Option.isSome_none,
      Bool.false_eq_true, if_false, Option.bind_eq_bind, Option.bind_eq_some,
      Option.some_inj, Prod.mk.injEq] at hpfm
    obtain ⟨stripped, hs, x, hx, short, hsh, colornum, hcn, colored, hcol, body, hb,
      hcs, hline⟩ := hpfm
    refine ⟨?_, by omega, by omega⟩
    rw [← hcs]
    exact mapLookup_mapInsert_self _ _ _
  · intro n h1 h2 s
    interval_cases n <;> simp [get_corresponding_color]
  · intro cs message author col cs1 line hsome hpfm
    simp only [print_formatted_message, mapContains, hsome, Option.isSome_some,
      if_true, Option.bind_eq_bind, Option.bind_eq_some, Option.some_inj,
      Prod.mk.injEq] at hpfm
    obtain ⟨stripped, hs, x, hx, short, hsh, colornum, hcn, colored, hcol, body, hb,
      hcs, hline⟩ := hpfm
    cases hcn
    exact ⟨hcs.symm, short, body, colored, hcol, hline.symm⟩

/-- C10 witness: concrete first and repeat displays of authorB — the
first display from cs0 assigns color 1 (inside the palette) and a repeat
display from csA keeps the stored color 5 and renders cyan. -/
theorem C10_color_witness :
    (mapLookup authorB csB.pubkeys_to_colors = some (1 + cs0.entropy cs0.used % 7) ∧
     1 ≤ 1 + cs0.entropy cs0.used % 7 ∧ 1 + cs0.entropy cs0.used % 7 ≤ 8) ∧
    (get_corresponding_color "1qqqqq" 8).isSome ∧
    (csA = csA ∧
     ∃ short body colored,
       get_corresponding_color short 5 = some colored ∧
       "<cyan>1qqqqq</cyan>: hi" = colored ++ ": " ++ body) :=
  ⟨(C10_color_assignment_stable_and_in_palette extC).1 cs0 "\"hi\"" authorB csB
      "<green>1qqqqq</green>: hi" rfl rfl,
   (C10_color_assignment_stable_and_in_palette extC).2.1 8 (by decide) (by decide) "1qqqqq",
   (C10_color_assignment_stable_and_in_palette extC).2.2 csA "\"hi\"" authorB 5 csA
      "<cyan>1qqqqq</cyan>: hi" rfl rfl⟩

/-- Serialization of a JSON string value. -/
theorem renderJson_str (p : String) : renderJson (.str p) = "\"" ++ escapeStr p ++ "\"" := rfl

/-- Stripping the first and last byte of a JSON-rendered string — the
`[1 .. len - 1]` slice the client applies to to_string output — recovers
the payload. -/
theorem rustSlice_strip_quotes (p : String) :
    rustSlice ("\"" ++ p ++ "\"") 1 (("\"" ++ p ++ "\"").length - 1) = some p := by
  have hlen : ("\"" ++ p ++ "\"").length = p.data.length + 2 := by
    show ('"' :: (p.data ++ ['"'])).length = p.data.length + 2
    simp
  rw [rustSlice, hlen]
  have hcond : 1 ≤ p.data.length + 2 - 1 ∧ p.data.length + 2 - 1 ≤ p.data.length + 2 := by
    omega
  rw [if_pos hcond]
  have harith : p.data.length + 2 - 1 - 1 = p.data.length := by omega
  show some (String.mk ((('"' :: (p.data ++ ['"'])).drop 1).take (p.data.length + 2 - 1 - 1)))
      = some p
  rw [List.drop_succ_cons, List.drop_zero, harith, List.take_left]

/-- C7: self-echo filtering is applied only by channel sessions and only
in the Live phase.  A Live-phase channel step drops an EVENT whose author
equals the local identity's display form (no output) and displays the
same EVENT when the author is any other identity; a replaying-phase
channel step buffers every EVENT with no author comparison; and a private
session's step function is invariant under the stored local public key in
both phases — there is no self-suppression on the private path at all. -/
theorem C7_self_echo_suppression_asymmetry (E : ExtCrates) :
    (∀ (h : PrintingHandler) (content p : String),
        escapeStr p = p →
        p = E.xToString h.public_key →
        channelStep E { handler := h, phase := .live } (.json (eventFrame p content)) =
          some ({ handler := h, phase := .live }, [])) ∧
    (∀ (h : PrintingHandler) (content p : String) (cs1 : ColorState) (line : String),
        escapeStr p = p →
        p ≠ E.xToString h.public_key →
        print_formatted_message E h.colors (renderJson (.str content))
          (renderJson (.str p)) = some (cs1, line) →
        channelStep E { handler := h, phase := .live } (.json (eventFrame p content)) =
          some ({ handler := { h with colors := cs1 }, phase := .live },
                [.display line])) ∧
    (∀ (h : PrintingHandler) (buffer : List Json) (content p : String),
        channelStep E { handler := h, phase := .replaying buffer }
          (.json (eventFrame p content)) =
          some ({ handler := h,
                  phase := .replaying (buffer ++ [eventFrame p content]) }, [])) ∧
    (∀ (s : PrivState) (raw : RawFrame) (pk : Nat),
        privateStep E (s.withLocalKey pk) raw =
          (privateStep E s raw).map (fun r => (r.1.withLocalKey pk, r.2))) := by
  refine ⟨?_, ?_, ?_, ?_⟩
  · intro h content p hesc hpk
    subst hpk
    have hq : rustSlice (renderJson (Json.str (E.xToString h.public_key))) 1
        ((renderJson (Json.str (E.xToString h.public_key))).length - 1) =
        some (E.xToString h.public_key) := by
      rw [renderJson_str, hesc]
      exact rustSlice_strip_quotes _
    simp [channelStep, print_message, eventFrame, Json.idx, Json.as_str, Json.get,
      lookupField, hq]
  · intro h content p cs1 line hesc hne hpfm
    have hq : rustSlice (renderJson (Json.str p)) 1
        ((renderJson (Json.str p)).length - 1) = some p := by
      rw [renderJson_str, hesc]
      exact rustSlice_strip_quotes _
    simp [channelStep, print_message, eventFrame, Json.idx, Json.as_str, Json.get,
      lookupField, hq, hne, hpfm]
  · intro h buffer content p
    simp [channelStep, eventFrame, Json.idx, Json.as_str]
  · intro s raw pk
    obtain ⟨p, heap, h, ph⟩ := s
    simp only [privateStep, PrivState.withLocalKey]
    cases hc : privateStepCore E p heap h.colors ph raw with
    | none => rfl
    | some r => rfl

/-- C7 witness: the asymmetry evaluated concretely — the local identity's
own EVENT is dropped by the Live-phase channel step, the identical EVENT
from another author is displayed with its assigned color, the replaying
channel step buffers the self-authored EVENT, and the private step at a
replaced local key equals the original step. -/
theorem C7_self_echo_witness :
    channelStep extC { handler := handler0, phase := .live }
        (.json (eventFrame selfKeyText "hi")) =
      some ({ handler := handler0, phase := .live }, []) ∧
    channelStep extC { handler := handler0, phase := .live }
        (.json (eventFrame otherKeyText "hi")) =
      some ({ handler := { handler0 with colors := csB }, phase := .live },
            [.display "<green>1qqqqq</green>: hi"]) ∧
    channelStep extC { handler := handler0, phase := .replaying [] }
        (.json (eventFrame selfKeyText "hi")) =
      some ({ handler := handler0,
              phase := .replaying [eventFrame selfKeyText "hi"] }, []) ∧
    privateStep extC (privLive0.withLocalKey 77) (.json (eventFrame selfKeyText "hi")) =
      (privateStep extC privLive0 (.json (eventFrame selfKeyText "hi"))).map
        (fun r => (r.1.withLocalKey 77, r.2)) :=
  ⟨(C7_self_echo_suppression_asymmetry extC).1 handler0 "hi" selfKeyText
      (by decide) (by decide),
   (C7_self_echo_suppression_asymmetry extC).2.1 handler0 "hi" otherKeyText csB
      "<green>1qqqqq</green>: hi" (by decide) (by decide) rfl,
   (C7_self_echo_suppression_asymmetry extC).2.2.1 handler0 [] "hi" selfKeyText,
   (C7_self_echo_suppression_asymmetry extC).2.2.2 privLive0
      (.json (eventFrame selfKeyText "hi")) 77⟩
